import Mathlib

/-!
Shallow embedding of `src/main_script.py` (AI slide-deck generator).

Python strings are modelled as Lean `String` (a wrapper around `List Char` of
Unicode scalar values).  Character classes are modelled on code points, covering
the ASCII fragment that Python's `str.lower`, `str.strip` and the regex class
`\w` agree on for the strings this program manipulates.
-/

/-- Code-point model of Python `str.lower` on one character: `A`-`Z`
(code points 65..90) map to `a`-`z` (code point + 32); everything else is
unchanged (ASCII fragment). Used by `topic_name.lower()` at
`main_script.py:337`. -/
def pyLowerChar (c : Char) : Char :=
  if 65 ≤ c.toNat ∧ c.toNat ≤ 90 then Char.ofNat (c.toNat + 32) else c

/-- Python `s.lower()` applied to a whole string. -/
def pyLower (s : String) : String :=
  ⟨s.data.map pyLowerChar⟩

/-- The regex class `\w` of `re.sub(r'[^\w\-.]', '_', ...)` at
`main_script.py:337` (ASCII fragment): letters `a`-`z` (97..122) and
`A`-`Z` (65..90), digits `0`-`9` (48..57), underscore (95). -/
def isWordChar (c : Char) : Bool :=
  (97 ≤ c.toNat && c.toNat ≤ 122) || (65 ≤ c.toNat && c.toNat ≤ 90) ||
    (48 ≤ c.toNat && c.toNat ≤ 57) || c.toNat == 95

/-- A character kept (not replaced) by `re.sub(r'[^\w\-.]', '_', ...)`:
word character, dash (45) or dot (46). -/
def keepChar (c : Char) : Bool :=
  isWordChar c || c.toNat == 45 || c.toNat == 46

/-- One character of the substitution `re.sub(r'[^\w\-.]', '_', ...)`:
kept characters stay, every other character becomes `_`. -/
def sanitizeChar (c : Char) : Char :=
  if keepChar c then c else '_'

/-- `re.sub(r'[^\w\-.]', '_', topic_name.lower())` from `main_script.py:337`. -/
def sanitize (topicName : String) : String :=
  ⟨(pyLower topicName).data.map sanitizeChar⟩

/-- `clean_file_name_base` after the empty-result check at
`main_script.py:337-338`: if the sanitized base is empty, the generic base
`"presentation"` is substituted. -/
def cleanFileNameBase (topicName : String) : String :=
  let b := sanitize topicName
  if b = "" then "presentation" else b

/-- `file_name = f"{clean_file_name_base}_presentation.pptx"`
(`main_script.py:339`). -/
def outputFileName (topicName : String) : String :=
  cleanFileNameBase topicName ++ "_presentation.pptx"

/-- ASCII whitespace stripped by Python `str.strip()` with no argument:
space, tab, newline, carriage return, vertical tab, form feed. -/
def pyWhitespaceChar (c : Char) : Bool :=
  c == ' ' || c == '\t' || c == '\n' || c == '\r' || c == '\x0b' || c == '\x0c'

/-- Python `s.strip()`: remove leading and trailing whitespace. -/
def pyStrip (s : String) : String :=
  ⟨((s.data.dropWhile pyWhitespaceChar).reverse.dropWhile pyWhitespaceChar).reverse⟩

/-- `get_topic_from_user` (`main_script.py:16-24`), with the interactive
input stream modelled as a list of entered lines.  Each line is stripped;
the first truthy (non-empty) stripped line is returned, otherwise the user
is re-prompted (recursion on the rest of the stream).  `none` models a
stream that never supplies a non-empty line. -/
def getTopicFromUser : List String → Option String
  | [] => none
  | line :: rest =>
    let topic := pyStrip line
    if topic ≠ "" then some topic else getTopicFromUser rest

/-- A Python value that can appear in a `points` list of the parsed LLM JSON
(string, number, null, boolean, or nested list). -/
inductive PyVal where
  | str (s : String)
  | int (n : Int)
  | noneVal
  | boolVal (b : Bool)
  | list (xs : List PyVal)

mutual
/-- Python `repr` of a value, as used by `str` on the elements of a list
(simplified: string quoting without escape sequences). -/
def pyRepr : PyVal → String
  | .str s => "'" ++ s ++ "'"
  | .int n => toString n
  | .noneVal => "None"
  | .boolVal b => if b then "True" else "False"
  | .list xs => "[" ++ String.intercalate ", " (pyReprList xs) ++ "]"

/-- `pyRepr` mapped over a list of values. -/
def pyReprList : List PyVal → List String
  | [] => []
  | v :: vs => pyRepr v :: pyReprList vs
end

/-- Python `str(point_text)` as called at `main_script.py:276` and `:286`:
identity on strings, decimal rendering of integers, `"None"`, `"True"` /
`"False"`, and bracketed comma-separated `repr`s for a list. -/
def pyStr : PyVal → String
  | .str s => s
  | .int n => toString n
  | .noneVal => "None"
  | .boolVal b => if b then "True" else "False"
  | .list xs => "[" ++ String.intercalate ", " (pyReprList xs) ++ "]"

/-- One `{title, points}` section dictionary of the content JSON.  Either
key may be absent (`Option`), mirroring `dict.get` with a default. -/
structure SectionJson where
  title : Option String
  points : Option (List PyVal)

/-- The seven-key content dictionary consumed by
`create_presentation_from_content` (`main_script.py:218`).  Any key may be
absent, mirroring `content_json.get(key, default)`. -/
structure ContentJson where
  slide_1_title : Option String
  slide_2_overview : Option SectionJson
  slide_3_key_point_1 : Option SectionJson
  slide_4_key_point_2 : Option SectionJson
  slide_5_key_point_3 : Option SectionJson
  slide_6_key_point_4 : Option SectionJson
  slide_7_conclusion : Option SectionJson

/-- `content_json.get(key, {})`: a missing section behaves as the empty
dictionary, whose own `get` calls all take their defaults. -/
def sectionOf (o : Option SectionJson) : SectionJson :=
  o.getD { title := none, points := none }

/-- The deterministic fallback outline `mock_slide_content` built at
`main_script.py:164-214`, interpolating only the topic string. -/
def mockSlideContent (topic : String) : ContentJson where
  slide_1_title := some ("A Comprehensive Analysis of " ++ topic)
  slide_2_overview := some
    { title := some "Presentation Overview"
      points := some
        [ .str ("Introduction to the core concepts of " ++ topic ++ ".")
        , .str ("Exploration of key areas and impacts related to " ++ topic ++ ".")
        , .str "Summary of current trends and future projections." ] }
  slide_3_key_point_1 := some
    { title := some ("Fundamental Aspects of " ++ topic)
      points := some
        [ .str "Defining the primary characteristics and components."
        , .str "Historical context and evolution."
        , .str "Its significance in the broader field/industry." ] }
  slide_4_key_point_2 := some
    { title := some ("Current Trends and Developments in " ++ topic)
      points := some
        [ .str "Highlighting recent advancements and innovations."
        , .str ("Statistical data or notable examples of " ++ topic ++ " in action.")
        , .str "Emerging patterns and shifts in understanding or application." ] }
  slide_5_key_point_3 := some
    { title := some ("Challenges and Opportunities for " ++ topic)
      points := some
        [ .str ("Identifying key obstacles or limitations concerning " ++ topic ++ ".")
        , .str "Potential areas for growth, research, or improvement."
        , .str "Mitigation strategies for challenges." ] }
  slide_6_key_point_4 := some
    { title := some ("The Future Outlook of " ++ topic)
      points := some
        [ .str ("Predictions for the evolution of " ++ topic ++ " in the next 5-10 years.")
        , .str ("Potential impact of " ++ topic ++ " on society, technology, or specific sectors.")
        , .str "Upcoming research directions or anticipated breakthroughs." ] }
  slide_7_conclusion := some
    { title := some "Conclusion and Key Takeaways"
      points := some
        [ .str ("Recap of the most critical findings about " ++ topic ++ ".")
        , .str ("Final thoughts on the importance and relevance of " ++ topic ++ ".")
        , .str "Recommendations for further study or action." ] }

/-- Outcome of the generation collaborator inside
`generate_slide_content_with_llm`: `ok c` models a successful API call whose
response parsed as JSON `c`; `err` models every failure branch of
`main_script.py:127-161` — missing `GEMINI_API_KEY`, `ImportError` on the
client library, an API/network exception, or a JSON parse failure — all of
which fall through to the mock content at line 163. -/
inductive LlmResult where
  | ok (content : ContentJson)
  | err

/-- `generate_slide_content_with_llm` (`main_script.py:68-215`): on a
successful collaborator call the parsed content is returned (line 145);
on any failure the deterministic `mock_slide_content` is returned
(lines 163-215).  The snippets only feed the prompt of the collaborator
call and do not influence the fallback. -/
def generateSlideContentWithLlm (topic : String) (webSearchSnippets : List String)
    (r : LlmResult) : ContentJson :=
  match webSearchSnippets, r with
  | _, .ok c => c
  | _, .err => mockSlideContent topic

/-- The textual content of one rendered slide.  The model keeps the text
placed on a slide (title and bullet paragraphs) and abstracts layout
geometry: in `add_content_slide_with_bullets` (`main_script.py:237-289`)
the title lands in the title placeholder or a fallback text box, and the
bullets land in a body placeholder or a fallback text box — in every branch
the same title text and the same coerced bullet strings are written, so a
slide's text content is `(title, bullets)` regardless of the branch taken. -/
structure Slide where
  title : String
  bullets : List String
deriving DecidableEq

/-- `add_content_slide_with_bullets(prs, idx, title_text, points_list)`
(`main_script.py:237-289`): appends one slide whose title is `title_text`
and whose bullets are `str(point_text)` for each element of `points_list`,
in order.  The slide is appended in every branch (layout-index fallback,
missing title placeholder, missing body placeholder). -/
def addContentSlideWithBullets (slides : List Slide) (titleText : String)
    (pointsList : List PyVal) : List Slide :=
  slides ++ [{ title := titleText, bullets := pointsList.map pyStr }]

/-- The slide-population part of `create_presentation_from_content`
(`main_script.py:291-335`): the title slide (title
`content_json.get("slide_1_title", f"{topic_name} - An Overview")`, subtitle
text `f"AI-Generated Presentation on: {topic_name}"` — the same text the
exception fallback at line 319 passes as the single bullet), then the six
content slides in fixed order with the `dict.get` defaults of
lines 321-335. -/
def createPresentationSlides (topicName : String) (contentJson : ContentJson) :
    List Slide :=
  let slide1TitleText := contentJson.slide_1_title.getD (topicName ++ " - An Overview")
  let s1 : List Slide :=
    [{ title := slide1TitleText
       bullets := ["AI-Generated Presentation on: " ++ topicName] }]
  let overviewData := sectionOf contentJson.slide_2_overview
  let s2 := addContentSlideWithBullets s1 (overviewData.title.getD "Overview")
    (overviewData.points.getD [.str "No overview points generated."])
  let kp1 := sectionOf contentJson.slide_3_key_point_1
  let s3 := addContentSlideWithBullets s2 (kp1.title.getD "Key Point 1")
    (kp1.points.getD [.str "No points generated for Key Point 1."])
  let kp2 := sectionOf contentJson.slide_4_key_point_2
  let s4 := addContentSlideWithBullets s3 (kp2.title.getD "Key Point 2")
    (kp2.points.getD [.str "No points generated for Key Point 2."])
  let kp3 := sectionOf contentJson.slide_5_key_point_3
  let s5 := addContentSlideWithBullets s4 (kp3.title.getD "Key Point 3")
    (kp3.points.getD [.str "No points generated for Key Point 3."])
  let kp4 := sectionOf contentJson.slide_6_key_point_4
  let s6 := addContentSlideWithBullets s5 (kp4.title.getD "Key Point 4")
    (kp4.points.getD [.str "No points generated for Key Point 4."])
  let conclusionData := sectionOf contentJson.slide_7_conclusion
  addContentSlideWithBullets s6 (conclusionData.title.getD "Conclusion / Takeaways")
    (conclusionData.points.getD [.str "No conclusion points generated."])

/-- The fixed fallback file name of `main_script.py:347`. -/
def fallbackFileName : String := "fallback_presentation.pptx"

/-- The save stage of `create_presentation_from_content`
(`main_script.py:341-354`).  `saveOk` models the file system: whether
`prs.save(name)` succeeds for a given name.  Returns the list of attempted
file names, in order, and the result (`some savedName` or `none`); the
Python `try/except` nesting means no exception escapes this stage. -/
def savePresentationWithFallback (saveOk : String → Bool) (fileName : String) :
    List String × Option String :=
  if saveOk fileName then ([fileName], some fileName)
  else if saveOk fallbackFileName then ([fileName, fallbackFileName], some fallbackFileName)
  else ([fileName, fallbackFileName], none)

/-- The whole of `create_presentation_from_content` (`main_script.py:218-354`):
build the seven slides, derive the file name from the topic, save with one
fallback retry. -/
def createPresentationFromContent (saveOk : String → Bool) (topicName : String)
    (contentJson : ContentJson) : List Slide × List String × Option String :=
  (createPresentationSlides topicName contentJson,
   savePresentationWithFallback saveOk (outputFileName topicName))

/-- `needle` occurs as a contiguous substring of `hay` (Python `in` on
strings), as a decidable Boolean check over the character lists. -/
def listContainsSub (hay needle : List Char) : Bool :=
  (List.range (hay.length + 1)).any fun i => (hay.drop i).take needle.length == needle

/-- String form of `listContainsSub`. -/
def strContains (hay needle : String) : Bool :=
  listContainsSub hay.data needle.data

/-- A string is non-empty. -/
def filledStr (s : String) : Prop := s.data ≠ []

instance (s : String) : Decidable (filledStr s) := by
  unfold filledStr; infer_instance

/-- A section dictionary is present and has a non-empty title and a
non-empty points list. -/
def sectionFilled (o : Option SectionJson) : Prop :=
  match o with
  | some s => filledStr (s.title.getD "") ∧ s.points.getD [] ≠ []
  | none => False

/-- All seven keys of a content dictionary are present, each title is
non-empty, and each points list is non-empty. -/
def outlineFilled (c : ContentJson) : Prop :=
  filledStr (c.slide_1_title.getD "") ∧
  sectionFilled c.slide_2_overview ∧
  sectionFilled c.slide_3_key_point_1 ∧
  sectionFilled c.slide_4_key_point_2 ∧
  sectionFilled c.slide_5_key_point_3 ∧
  sectionFilled c.slide_6_key_point_4 ∧
  sectionFilled c.slide_7_conclusion

/-! Helper lemmas -/

theorem str_append_data_ne (a b : String) (h : a.data ≠ []) : (a ++ b).data ≠ [] := by
  rw [String.data_append]
  rcases List.exists_cons_of_ne_nil h with ⟨c, l, hcl⟩
  rw [hcl]
  simp

theorem strContains_append_right (pre t : String) : strContains (pre ++ t) t = true := by
  unfold strContains listContainsSub
  rw [List.any_eq_true]
  refine ⟨pre.data.length, ?_, ?_⟩
  · rw [List.mem_range, String.data_append, List.length_append]
    omega
  · rw [String.data_append, List.drop_left, List.take_length]
    exact beq_self_eq_true _

theorem char_toNat_ofNat_valid {n : Nat} (h : n.isValidChar) : (Char.ofNat n).toNat = n := by
  unfold Char.ofNat
  rw [dif_pos h]
  rfl

theorem pyLowerChar_toNat_upper {c : Char} (h : 65 ≤ c.toNat ∧ c.toNat ≤ 90) :
    (pyLowerChar c).toNat = c.toNat + 32 := by
  unfold pyLowerChar
  rw [if_pos h]
  exact char_toNat_ofNat_valid (Or.inl (by omega))

theorem pyLowerChar_not_upper (c : Char) :
    ¬ (65 ≤ (pyLowerChar c).toNat ∧ (pyLowerChar c).toNat ≤ 90) := by
  by_cases h : 65 ≤ c.toNat ∧ c.toNat ≤ 90
  · have := pyLowerChar_toNat_upper h
    omega
  · unfold pyLowerChar
    rw [if_neg h]
    exact h

theorem pyLowerChar_idem (c : Char) : pyLowerChar (pyLowerChar c) = pyLowerChar c := by
  nth_rewrite 1 [pyLowerChar]
  rw [if_neg (pyLowerChar_not_upper c)]

theorem sanitizeChar_lower_fixed {d : Char} (hfix : pyLowerChar d = d) :
    sanitizeChar (pyLowerChar (sanitizeChar d)) = sanitizeChar d := by
  by_cases hk : keepChar d = true
  · have h1 : sanitizeChar d = d := by simp [sanitizeChar, hk]
    rw [h1, hfix, h1]
  · have h1 : sanitizeChar d = '_' := by simp [sanitizeChar, hk]
    rw [h1]
    decide

/-! Claim theorems -/

/-- C1: for every non-empty topic string and every snippet list, when the
generation collaborator is unavailable or fails (any branch modelled by
`LlmResult.err`: no API key, missing library, network error, JSON parse
failure), `generate_slide_content_with_llm` returns the deterministic
templated outline in which all seven sections are present with a non-empty
title and a non-empty points list; the function is total, so it never fails
to return an outline. -/
theorem llm_fallback_outline_filled (topic : String) (snippets : List String)
    (hne : topic ≠ "") :
    outlineFilled (generateSlideContentWithLlm topic snippets .err) := by
  have hmock : generateSlideContentWithLlm topic snippets .err = mockSlideContent topic := by
    cases snippets <;> rfl
  rw [hmock]
  refine ⟨?_, ⟨?_, ?_⟩, ⟨?_, ?_⟩, ⟨?_, ?_⟩, ⟨?_, ?_⟩, ⟨?_, ?_⟩, ⟨?_, ?_⟩⟩
  · exact str_append_data_ne "A Comprehensive Analysis of " topic (by decide)
  · exact (by decide : filledStr "Presentation Overview")
  · exact List.cons_ne_nil _ _
  · exact str_append_data_ne "Fundamental Aspects of " topic (by decide)
  · exact List.cons_ne_nil _ _
  · exact str_append_data_ne "Current Trends and Developments in " topic (by decide)
  · exact List.cons_ne_nil _ _
  · exact str_append_data_ne "Challenges and Opportunities for " topic (by decide)
  · exact List.cons_ne_nil _ _
  · exact str_append_data_ne "The Future Outlook of " topic (by decide)
  · exact List.cons_ne_nil _ _
  · exact (by decide : filledStr "Conclusion and Key Takeaways")
  · exact List.cons_ne_nil _ _

/-- C1 witness: the theorem applied to the concrete topic "LLM Evaluation"
and the synthetic snippet the orchestrator substitutes. -/
theorem llm_fallback_outline_filled_witness :
    "LLM Evaluation" ≠ "" ∧
    outlineFilled (generateSlideContentWithLlm "LLM Evaluation"
      ["No specific web information found for LLM Evaluation, relying on general knowledge."]
      .err) :=
  ⟨by decide,
   llm_fallback_outline_filled "LLM Evaluation"
     ["No specific web information found for LLM Evaluation, relying on general knowledge."]
     (by decide)⟩

/-- C2: for every topic string and every content dictionary (including one
missing any or all of the seven schema keys), `create_presentation_from_content`
adds exactly seven slides in the fixed order: title slide, overview, key
points 1-4, conclusion, each titled by the corresponding section (or its
fixed default). -/
theorem presentation_has_seven_slides_in_order (topic : String) (c : ContentJson) :
    (createPresentationSlides topic c).length = 7 ∧
    (createPresentationSlides topic c).map Slide.title =
      [ c.slide_1_title.getD (topic ++ " - An Overview"),
        (sectionOf c.slide_2_overview).title.getD "Overview",
        (sectionOf c.slide_3_key_point_1).title.getD "Key Point 1",
        (sectionOf c.slide_4_key_point_2).title.getD "Key Point 2",
        (sectionOf c.slide_5_key_point_3).title.getD "Key Point 3",
        (sectionOf c.slide_6_key_point_4).title.getD "Key Point 4",
        (sectionOf c.slide_7_conclusion).title.getD "Conclusion / Takeaways" ] := by
  constructor <;> simp [createPresentationSlides, addContentSlideWithBullets]

/-- A content dictionary whose overview section is present but carries an
empty `points` list; every other key is absent. -/
def emptyPointsContent : ContentJson :=
  { slide_1_title := none
    slide_2_overview := some { title := some "Overview", points := some [] }
    slide_3_key_point_1 := none
    slide_4_key_point_2 := none
    slide_5_key_point_3 := none
    slide_6_key_point_4 := none
    slide_7_conclusion := none }

/-- A content dictionary with all seven keys absent. -/
def noSectionsContent : ContentJson :=
  { slide_1_title := none
    slide_2_overview := none
    slide_3_key_point_1 := none
    slide_4_key_point_2 := none
    slide_5_key_point_3 := none
    slide_6_key_point_4 := none
    slide_7_conclusion := none }

/-- C3 counterexample: an outline whose overview section is present with an
empty `points` sequence is rendered with an EMPTY bullet list, not with the
single placeholder bullet the claim requires — `dict.get("points", default)`
only takes the placeholder default when the key is missing, not when the
value is an empty list. -/
theorem empty_points_not_replaced_by_placeholder :
    emptyPointsContent.slide_2_overview = some { title := some "Overview", points := some [] } ∧
    (createPresentationSlides "Climate" emptyPointsContent)[1]? =
      some { title := "Overview", bullets := [] } := ⟨rfl, rfl⟩

/-- C3 (amended): the deck always has exactly seven slides (no slide is ever
omitted); a MISSING section key is replaced by its fixed one-placeholder
bullet list; a section that is present with an empty `points` list yields a
slide with an empty body, not a placeholder. -/
theorem missing_section_placeholder_empty_points_kept (topic : String) (c : ContentJson) :
    (createPresentationSlides topic c).length = 7 ∧
    (c.slide_2_overview = none →
      (createPresentationSlides topic c)[1]? =
        some { title := "Overview", bullets := ["No overview points generated."] }) ∧
    (∀ s, c.slide_2_overview = some s → s.points = some [] →
      (createPresentationSlides topic c)[1]? =
        some { title := s.title.getD "Overview", bullets := [] }) ∧
    (c.slide_3_key_point_1 = none →
      (createPresentationSlides topic c)[2]? =
        some { title := "Key Point 1", bullets := ["No points generated for Key Point 1."] }) ∧
    (∀ s, c.slide_3_key_point_1 = some s → s.points = some [] →
      (createPresentationSlides topic c)[2]? =
        some { title := s.title.getD "Key Point 1", bullets := [] }) ∧
    (c.slide_4_key_point_2 = none →
      (createPresentationSlides topic c)[3]? =
        some { title := "Key Point 2", bullets := ["No points generated for Key Point 2."] }) ∧
    (∀ s, c.slide_4_key_point_2 = some s → s.points = some [] →
      (createPresentationSlides topic c)[3]? =
        some { title := s.title.getD "Key Point 2", bullets := [] }) ∧
    (c.slide_5_key_point_3 = none →
      (createPresentationSlides topic c)[4]? =
        some { title := "Key Point 3", bullets := ["No points generated for Key Point 3."] }) ∧
    (∀ s, c.slide_5_key_point_3 = some s → s.points = some [] →
      (createPresentationSlides topic c)[4]? =
        some { title := s.title.getD "Key Point 3", bullets := [] }) ∧
    (c.slide_6_key_point_4 = none →
      (createPresentationSlides topic c)[5]? =
        some { title := "Key Point 4", bullets := ["No points generated for Key Point 4."] }) ∧
    (∀ s, c.slide_6_key_point_4 = some s → s.points = some [] →
      (createPresentationSlides topic c)[5]? =
        some { title := s.title.getD "Key Point 4", bullets := [] }) ∧
    (c.slide_7_conclusion = none →
      (createPresentationSlides topic c)[6]? =
        some { title := "Conclusion / Takeaways", bullets := ["No conclusion points generated."] }) ∧
    (∀ s, c.slide_7_conclusion = some s → s.points = some [] →
      (createPresentationSlides topic c)[6]? =
        some { title := s.title.getD "Conclusion / Takeaways", bullets := [] }) := by
  refine ⟨?_, ?_, ?_, ?_, ?_, ?_, ?_, ?_, ?_, ?_, ?_, ?_, ?_⟩
  · simp [createPresentationSlides, addContentSlideWithBullets]
  all_goals first
    | (intro h
       simp [createPresentationSlides, addContentSlideWithBullets, sectionOf, pyStr, h])
    | (intro s h hp
       simp [createPresentationSlides, addContentSlideWithBullets, sectionOf, h, hp])

/-- C3 witness: the amended theorem applied to a dictionary with all keys
missing (placeholder bullet substituted) and to one whose overview has an
empty points list (empty body, slide still present). -/
theorem missing_section_placeholder_empty_points_kept_witness :
    (createPresentationSlides "Topic" noSectionsContent).length = 7 ∧
    (createPresentationSlides "Topic" noSectionsContent)[1]? =
      some { title := "Overview", bullets := ["No overview points generated."] } ∧
    (createPresentationSlides "Topic" emptyPointsContent)[1]? =
      some { title := "Overview", bullets := [] } :=
  ⟨(missing_section_placeholder_empty_points_kept "Topic" noSectionsContent).1,
   (missing_section_placeholder_empty_points_kept "Topic" noSectionsContent).2.1 rfl,
   (missing_section_placeholder_empty_points_kept "Topic" emptyPointsContent).2.2.1
     { title := some "Overview", points := some [] } rfl rfl⟩

/-- C4 counterexample: sanitizing the topic "Climate Change!" replaces the
trailing `!` with an underscore rather than deleting it, so the produced
file name has a double underscore and is NOT the claimed
`climate_change_presentation.pptx`. -/
theorem climate_change_filename_cex :
    outputFileName "Climate Change!" = "climate_change__presentation.pptx" ∧
    outputFileName "Climate Change!" ≠ "climate_change_presentation.pptx" := by decide

/-- C4 (amended): under the fixed substitution rule (each character outside
word/dash/dot becomes one underscore, after lowercasing) the topics
"Climate Change!" and "Climate Change?" both yield the file name
`climate_change__presentation.pptx`. -/
theorem climate_change_filename_value :
    outputFileName "Climate Change!" = "climate_change__presentation.pptx" ∧
    outputFileName "Climate Change?" = "climate_change__presentation.pptx" := by decide

/-- C5 counterexample: a topic consisting only of punctuation, `"???"`, is
NOT rejected by `get_topic_from_user`: `"???".strip()` is non-empty, so the
truthiness check at `main_script.py:20` accepts it and the function returns
it, letting the pipeline proceed with it. -/
theorem punctuation_topic_accepted_cex :
    getTopicFromUser ["???"] = some "???" ∧ "???" ≠ "" := by decide

/-- C5 (amended): the input stage rejects exactly the entries that are empty
after whitespace trimming, re-prompting on those; any entry whose trimmed
form is non-empty — punctuation-only topics such as "???" included — is
returned (trimmed) and the pipeline proceeds with it. -/
theorem topic_gate_only_rejects_whitespace (line : String) (rest : List String) :
    (pyStrip line = "" → getTopicFromUser (line :: rest) = getTopicFromUser rest) ∧
    (pyStrip line ≠ "" → getTopicFromUser (line :: rest) = some (pyStrip line)) := by
  constructor <;> intro h <;> simp [getTopicFromUser, h]

/-- C5 witness: a whitespace-only entry is skipped and the next non-empty
entry is returned trimmed. -/
theorem topic_gate_only_rejects_whitespace_witness :
    getTopicFromUser ["   ", " hi "] = some "hi" := by
  have h1 := (topic_gate_only_rejects_whitespace "   " [" hi "]).1 (by decide)
  have h2 := (topic_gate_only_rejects_whitespace " hi " []).2 (by decide)
  rw [h1, h2]
  decide

/-- C6 counterexample: not every field of the fallback outline interpolates
the topic — for topic "X" the overview section's title is the fixed string
"Presentation Overview", which does not contain "X" as a substring. -/
theorem mock_overview_title_no_topic_cex :
    (sectionOf (generateSlideContentWithLlm "X" [] .err).slide_2_overview).title.getD ""
      = "Presentation Overview" ∧
    strContains "Presentation Overview" "X" = false := by decide

/-- C6 (amended): the fallback outline interpolates the topic into its main
title and into each of the four key-point section titles (the topic is a
substring of each, for every topic and snippet list); the overview and
conclusion titles and several bullets are fixed strings that do not
interpolate the topic. -/
theorem mock_outline_title_interpolation (topic : String) (snippets : List String) :
    strContains ((generateSlideContentWithLlm topic snippets .err).slide_1_title.getD "")
      topic = true ∧
    strContains
      ((sectionOf (generateSlideContentWithLlm topic snippets .err).slide_3_key_point_1).title.getD "")
      topic = true ∧
    strContains
      ((sectionOf (generateSlideContentWithLlm topic snippets .err).slide_4_key_point_2).title.getD "")
      topic = true ∧
    strContains
      ((sectionOf (generateSlideContentWithLlm topic snippets .err).slide_5_key_point_3).title.getD "")
      topic = true ∧
    strContains
      ((sectionOf (generateSlideContentWithLlm topic snippets .err).slide_6_key_point_4).title.getD "")
      topic = true := by
  have hmock : generateSlideContentWithLlm topic snippets .err = mockSlideContent topic := by
    cases snippets <;> rfl
  rw [hmock]
  exact ⟨strContains_append_right "A Comprehensive Analysis of " topic,
    strContains_append_right "Fundamental Aspects of " topic,
    strContains_append_right "Current Trends and Developments in " topic,
    strContains_append_right "Challenges and Opportunities for " topic,
    strContains_append_right "The Future Outlook of " topic⟩

/-- C7: if saving to the derived file name fails, the save stage attempts
exactly one retry, with the fixed fallback name, and returns that name when
the retry succeeds; if the retry also fails it returns `none`.  The nested
`try/except` of `main_script.py:341-354` makes the stage total, so no
exception passes the renderer boundary. -/
theorem save_retries_fallback_once (saveOk : String → Bool) (fileName : String)
    (h : saveOk fileName = false) :
    (savePresentationWithFallback saveOk fileName).1 = [fileName, fallbackFileName] ∧
    (saveOk fallbackFileName = true →
      (savePresentationWithFallback saveOk fileName).2 = some fallbackFileName) ∧
    (saveOk fallbackFileName = false →
      (savePresentationWithFallback saveOk fileName).2 = none) := by
  by_cases hf : saveOk fallbackFileName <;>
    simp [savePresentationWithFallback, h, hf]

/-- C7 witness: a file system on which only the fallback name is writable —
the failed primary save is followed by exactly the one fallback attempt,
which is returned. -/
theorem save_retries_fallback_once_witness :
    (savePresentationWithFallback (fun n => n == fallbackFileName) "x.pptx").1 =
      ["x.pptx", fallbackFileName] ∧
    (savePresentationWithFallback (fun n => n == fallbackFileName) "x.pptx").2 =
      some fallbackFileName := by
  have h := save_retries_fallback_once (fun n => n == fallbackFileName) "x.pptx" (by decide)
  exact ⟨h.1, h.2.1 (by decide)⟩

/-- C8: the filename-sanitization of `main_script.py:337` (lowercase, then
replace every character outside word/dash/dot with an underscore) is
idempotent: sanitizing an already-sanitized string yields the same string. -/
theorem sanitize_idempotent (s : String) : sanitize (sanitize s) = sanitize s := by
  apply String.ext
  simp only [sanitize, pyLower, List.map_map]
  induction s.data with
  | nil => rfl
  | cons c l ih =>
    simp only [List.map_cons, List.cons.injEq, Function.comp_apply]
    exact ⟨sanitizeChar_lower_fixed (pyLowerChar_idem c), ih⟩

/-- C9: the substitution maps each character to exactly one character and
never deletes, so a non-empty topic has a non-empty sanitized base; the
generic-base branch (`"presentation"`, `main_script.py:338`) is therefore
unreachable under the non-empty-topic precondition and the primary output
name is always derived from the topic itself. -/
theorem nonempty_topic_nonempty_base (topic : String) (h : topic ≠ "") :
    sanitize topic ≠ "" ∧ cleanFileNameBase topic = sanitize topic ∧
    outputFileName topic = sanitize topic ++ "_presentation.pptx" := by
  have hne : sanitize topic ≠ "" := by
    intro he
    apply h
    apply String.ext
    have hd := congrArg String.data he
    simp only [sanitize, pyLower, List.map_map] at hd
    have hnil : topic.data = [] := by
      rcases hq : topic.data with _ | ⟨a, l⟩
      · rfl
      · rw [hq] at hd
        simp at hd
    rw [hnil]
  refine ⟨hne, ?_, ?_⟩
  · simp [cleanFileNameBase, hne]
  · simp [outputFileName, cleanFileNameBase, hne]

/-- C9 witness: the theorem at the topic "Climate Change". -/
theorem nonempty_topic_nonempty_base_witness :
    "Climate Change" ≠ "" ∧ sanitize "Climate Change" ≠ "" ∧
    cleanFileNameBase "Climate Change" = sanitize "Climate Change" ∧
    outputFileName "Climate Change" = sanitize "Climate Change" ++ "_presentation.pptx" :=
  ⟨by decide, nonempty_topic_nonempty_base "Climate Change" (by decide)⟩

/-- C10: the renderer coerces every bullet value with `str()`
(`main_script.py:276`, `:286`) before placing it, so a points list holding
non-string values (numbers, null, booleans, nested lists) still renders,
with each value's string form as the bullet text, shown here on the
overview slide for an arbitrary points list. -/
theorem bullets_coerced_with_str (topic : String) (c : ContentJson) (s : SectionJson)
    (ps : List PyVal) (h1 : c.slide_2_overview = some s) (h2 : s.points = some ps) :
    (createPresentationSlides topic c)[1]? =
      some { title := s.title.getD "Overview", bullets := ps.map pyStr } := by
  simp [createPresentationSlides, addContentSlideWithBullets, sectionOf, h1, h2]

/-- A content dictionary whose overview points are non-string Python
values: an integer, `None`, a boolean, and a nested list. -/
def nonStringPointsContent : ContentJson :=
  { slide_1_title := none
    slide_2_overview := some
      { title := some "Values"
        points := some [.int 42, .noneVal, .boolVal true, .list [.str "a", .int 1]] }
    slide_3_key_point_1 := none
    slide_4_key_point_2 := none
    slide_5_key_point_3 := none
    slide_6_key_point_4 := none
    slide_7_conclusion := none }

/-- C10 witness: concrete non-string bullets render as their Python string
forms. -/
theorem bullets_coerced_with_str_witness :
    (createPresentationSlides "T" nonStringPointsContent)[1]? =
      some { title := "Values", bullets := ["42", "None", "True", "['a', 1]"] } := by
  have h := bullets_coerced_with_str "T" nonStringPointsContent
    { title := some "Values"
      points := some [.int 42, .noneVal, .boolVal true, .list [.str "a", .int 1]] }
    [.int 42, .noneVal, .boolVal true, .list [.str "a", .int 1]] rfl rfl
  simpa using h
